import Mathlib

/-!
Shallow embedding of the appointment-lifecycle / payment-capture core of the
mediconnect backend (Express + Mongoose).  Documents are records, collections
are lists, `findOne` is `List.find?` (first match, insertion order), and a
Mongoose `doc.save()` is a by-id replacement in the list.  Timestamps are
modelled as milliseconds since the Unix epoch (`Nat`); the server timezone is
taken to be UTC, so `toTimeString().slice(0,5)` is the minute-of-day and the
ISO calendar date is the epoch day.  `HH:MM` strings (regex-validated, assumed
zero padded) are modelled as minutes since midnight, on which the source's
string comparisons coincide with numeric comparison.  External collaborators
(PayPal, the email service, the notification service) are modelled as explicit
oracle parameters: each call site consumes its oracle, and the call itself is
recorded in an effect trace.
-/

namespace Mediconnect

/-- Appointment.status enum (models/Appointment.js). -/
inductive AppointmentStatus
  | pending_payment
  | pending
  | confirmed
  | cancelled
  | completed
  | no_show
  | rescheduled
deriving DecidableEq, Repr

/-- Payment.status enum (models/Payment.js). -/
inductive PaymentStatus
  | PENDING
  | PROCESSING
  | COMPLETED
  | FAILED
  | REFUNDED
  | REFUND_FAILED
deriving DecidableEq, Repr

/-- req.user.role for the two roles the core concerns. -/
inductive Role
  | patient
  | doctor
deriving DecidableEq, Repr

/-- The JS status string, as used in `appointment_${status}` event types. -/
def AppointmentStatus.key : AppointmentStatus → String
  | .pending_payment => "pending_payment"
  | .pending => "pending"
  | .confirmed => "confirmed"
  | .cancelled => "cancelled"
  | .completed => "completed"
  | .no_show => "no_show"
  | .rescheduled => "rescheduled"

def Role.key : Role → String
  | .patient => "patient"
  | .doctor => "doctor"

/-- Appointment.rating subdocument. -/
structure Rating where
  score : Nat
  feedback : String
  isAnonymous : Bool
deriving DecidableEq, Repr

/-- An Appointment document (models/Appointment.js). -/
structure Appointment where
  id : Nat
  patientId : Nat
  doctorId : Nat
  dateTime : Nat          -- ms since epoch
  duration : Nat := 30    -- minutes
  status : AppointmentStatus := .pending_payment
  reasonForVisit : String := ""
  cancellationReason : Option String := none
  cancelledBy : Option Role := none
  rescheduledFrom : Option Nat := none
  rating : Option Rating := none
deriving DecidableEq, Repr

/-- Payment.transactionDetails as written by capturePayment. -/
structure TransactionDetails where
  captureId : String
  paymentMethod : String := "PayPal"
deriving DecidableEq, Repr

/-- Payment.refundDetails as written by RefundService.processRefund. -/
structure RefundDetails where
  refundId : String
  reason : String
  status : String
  amount : Nat
deriving DecidableEq, Repr

/-- A Payment document (models/Payment.js). -/
structure Payment where
  id : Nat
  appointmentId : Nat
  amount : Nat
  currency : Option String := none
  paypalOrderId : Option String := none
  status : PaymentStatus := .PENDING
  transactionDetails : Option TransactionDetails := none
  refundDetails : Option RefundDetails := none
deriving DecidableEq, Repr

/-- A time slot on the doctor calendar (timeSlotSchema). startTime/endTime are
HH:MM strings in the source, modelled as minutes since midnight. -/
structure CalendarSlot where
  slotId : Nat := 0
  startTime : Nat
  endTime : Nat
  isBooked : Bool := false
  isBlocked : Bool := false
deriving DecidableEq, Repr

/-- A per-date schedule entry (dailyScheduleSchema). -/
structure DateSchedule where
  date : Nat              -- ms since epoch
  slots : List CalendarSlot
  isHoliday : Bool := false
  holidayReason : Option String := none
deriving DecidableEq, Repr

/-- A defaultWorkingHours entry; `day` is the JS weekday name string. -/
structure DayWorkingHours where
  day : String
  isWorking : Bool := true
  slots : List CalendarSlot
deriving DecidableEq, Repr

/-- A DoctorCalendar document (models/DoctorCalendar.js). -/
structure DoctorCalendar where
  doctorId : Nat
  schedule : List DateSchedule
  defaultWorkingHours : List DayWorkingHours
deriving DecidableEq, Repr

/-- The persistent store: one list per collection the core touches. -/
structure DB where
  appointments : List Appointment := []
  payments : List Payment := []
  calendars : List DoctorCalendar := []
deriving DecidableEq, Repr

/-! ### Time helpers (server timezone = UTC) -/

def msPerDay : Nat := 86400000

/-- Epoch day; calendar-date equality via toISOString().split('T')[0]. -/
def epochDay (t : Nat) : Nat := t / msPerDay

/-- Minute of day; toTimeString().slice(0,5) as minutes since midnight. -/
def minuteOfDay (t : Nat) : Nat := t % msPerDay / 60000

/-- JS Date.getDay(): 0 = Sunday. 1970-01-01 was a Thursday. -/
def jsGetDay (t : Nat) : Nat := (epochDay t + 4) % 7

/-- The weekday-name array indexed by getDay() in getAvailableSlots. -/
def dayName (n : Nat) : String :=
  match n with
  | 0 => "Sunday"
  | 1 => "Monday"
  | 2 => "Tuesday"
  | 3 => "Wednesday"
  | 4 => "Thursday"
  | 5 => "Friday"
  | 6 => "Saturday"
  | _ => ""

/-- HH:MM regex-validated value: 00:00 .. 23:59. -/
def isValidTime (m : Nat) : Bool := m < 1440

/-! ### Store writes -/

/-- `doc.save()` for an appointment: replace by `_id`. -/
def putAppointment (db : DB) (a : Appointment) : DB :=
  { db with appointments := db.appointments.map (fun x => if x.id == a.id then a else x) }

/-- `doc.save()` for a payment: replace by `_id`. -/
def putPayment (db : DB) (p : Payment) : DB :=
  { db with payments := db.payments.map (fun x => if x.id == p.id then p else x) }

/-- `doc.save()` for a calendar: replace by doctorId (one per doctor). -/
def putCalendar (db : DB) (c : DoctorCalendar) : DB :=
  { db with calendars := db.calendars.map (fun x => if x.doctorId == c.doctorId then c else x) }

/-- Read an appointment's persisted status. -/
def apptStatus (db : DB) (id : Nat) : Option AppointmentStatus :=
  (db.appointments.find? (fun a => a.id == id)).map (fun a => a.status)

/-- Read a payment by its document id. -/
def paymentById (db : DB) (id : Nat) : Option Payment :=
  db.payments.find? (fun p => p.id == id)

/-! ### External-call effects -/

/-- A record of an outbound call made during an operation. -/
inductive Effect
  | emailAppointment (eventType : String)   -- emailService.sendAppointmentEmails
  | emailPayment (eventType : String)       -- emailService.sendPaymentNotification
  | notifyAppointment (eventType : String)  -- NotificationService.createAppointmentNotifications
  | providerCreateOrder                     -- PayPal OrdersCreateRequest execution
  | providerCapture                         -- PayPal OrdersCaptureRequest execution
  | providerRefund                          -- PayPal CapturesRefundRequest execution
  | paymentSave (status : PaymentStatus)    -- a Payment mutation persisted
deriving DecidableEq, Repr

/-! ### RefundService.processRefund (services/refundService.js) -/

/-- Outcome of the PayPal refund call, supplied as an oracle. -/
inductive ProviderRefund
  | ok (refundId : String)
  | err (msg : String)
deriving DecidableEq, Repr

structure RefundOk where
  refundId : String
  amount : Nat
deriving DecidableEq, Repr

inductive RefundErr
  | notFound                  -- AppError 404: no Payment for the appointment
  | alreadyRefunded           -- AppError 400: Payment already REFUNDED
  | providerError (msg : String)
  | emailError                -- sendPaymentNotification threw after the refund
deriving DecidableEq, Repr

/-- Return value of processRefund: the success object or the rethrown error. -/
inductive RefundResult
  | ok (r : RefundOk)
  | error (e : RefundErr)
deriving DecidableEq, Repr

/-- RefundService.processRefund.  The catch block runs for every error raised
after the lookup, and — because `payment` is in scope — persists
status = REFUND_FAILED before rethrowing. -/
def processRefund (provider : ProviderRefund) (emailOk : Bool) (db : DB)
    (appointmentId : Nat) (reason : String) :
    DB × List Effect × RefundResult :=
  match db.payments.find? (fun p => p.appointmentId == appointmentId) with
  | none => (db, [], .error .notFound)
  | some p =>
    if p.status == .REFUNDED then
      -- thrown AppError lands in the catch: payment set to REFUND_FAILED and saved
      (putPayment db { p with status := .REFUND_FAILED },
       [.paymentSave .REFUND_FAILED], .error .alreadyRefunded)
    else
      match provider with
      | .err m =>
        (putPayment db { p with status := .REFUND_FAILED },
         [.providerRefund, .paymentSave .REFUND_FAILED], .error (.providerError m))
      | .ok rid =>
        let p1 := { p with
          status := .REFUNDED,
          refundDetails := some { refundId := rid, reason := reason,
                                  status := "COMPLETED", amount := p.amount } }
        let db1 := putPayment db p1
        if emailOk then
          (db1, [.providerRefund, .paymentSave .REFUNDED, .emailPayment "refund_completed"],
           .ok { refundId := rid, amount := p.amount })
        else
          -- the email throw is caught too: the (REFUNDED) doc is flipped to
          -- REFUND_FAILED and saved again
          (putPayment db1 { p1 with status := .REFUND_FAILED },
           [.providerRefund, .paymentSave .REFUNDED, .emailPayment "refund_completed",
            .paymentSave .REFUND_FAILED],
           .error .emailError)

/-- The message the controller surfaces as `refundError` (the AppError message
rethrown by processRefund, or the cancellation-email failure). -/
def RefundErr.message : RefundErr → String
  | .notFound => "Payment not found for this appointment"
  | .alreadyRefunded => "Payment has already been refunded"
  | .providerError m => m
  | .emailError => "email send failed"

/-! ### updateAppointmentStatus (controllers/appointmentController.js) -/

inductive UpdateStatusResult
  | notFound                              -- 404
  | forbiddenNotOwner                     -- 403 not authorized
  | forbiddenConfirmNotDoctor             -- 403 only doctors can confirm
  | cancelledRefundFailed (msg : String)  -- 200 success:true, refund failure noted
  | ok                                    -- 200 success:true
  | serverError                           -- uncaught throw, next(error)
deriving DecidableEq, Repr

/-- Oracles for the external calls updateAppointmentStatus can make. -/
structure UpdateOracles where
  refundProvider : ProviderRefund := .ok "R1"
  refundEmailOk : Bool := true    -- sendPaymentNotification inside processRefund
  cancelEmailOk : Bool := true    -- sendAppointmentEmails(appointment,'cancelled')
  confirmEmailOk : Bool := true   -- sendAppointmentEmails(appointment,'confirmed')
  notifyOk : Bool := true         -- createAppointmentNotifications after the save
deriving DecidableEq, Repr

/-- The tail of updateAppointmentStatus: `appointment.status = status; save()`
followed by createAppointmentNotifications (whose throw escapes to the outer
catch after the save already happened). -/
def finishStatusWrite (notifyOk : Bool) (db : DB) (tr : List Effect)
    (doc : Appointment) (newStatus : AppointmentStatus) :
    DB × List Effect × UpdateStatusResult :=
  let db2 := putAppointment db { doc with status := newStatus }
  let tr2 := tr ++ [Effect.notifyAppointment ("appointment_" ++ newStatus.key)]
  if notifyOk then (db2, tr2, .ok) else (db2, tr2, .serverError)

/-- exports.updateAppointmentStatus.  Permission checks, then for `cancelled`
the refund + cancellation email (their failure returns 200 early, before the
status write), for `confirmed` the confirmation email (no local catch: a throw
aborts the request before the write), then the write and the notifications. -/
def updateAppointmentStatus (o : UpdateOracles) (db : DB) (apptId : Nat)
    (userId : Nat) (role : Role) (newStatus : AppointmentStatus) (reason : String) :
    DB × List Effect × UpdateStatusResult :=
  match db.appointments.find? (fun a => a.id == apptId) with
  | none => (db, [], .notFound)
  | some appt =>
    if role == .doctor && appt.doctorId != userId then (db, [], .forbiddenNotOwner)
    else if role == .patient && appt.patientId != userId then (db, [], .forbiddenNotOwner)
    else if newStatus == .confirmed && role != .doctor then (db, [], .forbiddenConfirmNotDoctor)
    else if newStatus == .cancelled then
      -- set on the in-memory document only; persisted iff save() is reached
      let apptMem := { appt with cancellationReason := some reason, cancelledBy := some role }
      let refundReason := "Appointment cancelled by " ++ role.key ++ ": " ++ reason
      match processRefund o.refundProvider o.refundEmailOk db appt.id refundReason with
      | (db1, tr, .error e) =>
        -- early return: "cancelled but refund processing failed"; no save()
        (db1, tr, .cancelledRefundFailed e.message)
      | (db1, tr, .ok _) =>
        let tr1 := tr ++ [Effect.emailAppointment "cancelled"]
        if o.cancelEmailOk then
          finishStatusWrite o.notifyOk db1 tr1 apptMem newStatus
        else
          -- the email throw lands in the same catch as a refund failure
          (db1, tr1, .cancelledRefundFailed RefundErr.emailError.message)
    else if newStatus == .confirmed then
      let tr := [Effect.emailAppointment "confirmed"]
      if o.confirmEmailOk then
        finishStatusWrite o.notifyOk db tr appt newStatus
      else
        (db, tr, .serverError)
    else
      finishStatusWrite o.notifyOk db [] appt newStatus

/-! ### requestReschedule (controllers/appointmentController.js) -/

inductive RescheduleResult
  | notFound
  | forbidden
  | conflict     -- 400 'Selected time slot is not available'
  | ok
deriving DecidableEq, Repr

/-- exports.requestReschedule.  The conflict query matches another pending or
confirmed appointment of the same doctor with
`newDateTime < dateTime < newDateTime + duration*60000` (both bounds strict,
per `$gt` / `$lt`). -/
def requestReschedule (db : DB) (apptId : Nat) (userId : Nat) (role : Role)
    (newDateTime : Nat) (_reason : String) : DB × RescheduleResult :=
  match db.appointments.find? (fun a => a.id == apptId) with
  | none => (db, .notFound)
  | some appt =>
    if role != .patient || appt.patientId != userId then (db, .forbidden)
    else
      let endDateTime := newDateTime + appt.duration * 60000
      match db.appointments.find? (fun c =>
          c.doctorId == appt.doctorId && c.id != appt.id &&
          (c.status == .pending || c.status == .confirmed) &&
          decide (c.dateTime < endDateTime) && decide (newDateTime < c.dateTime)) with
      | some _ => (db, .conflict)
      | none =>
        let a1 := { appt with rescheduledFrom := some appt.dateTime,
                              dateTime := newDateTime, status := .pending }
        (putAppointment db a1, .ok)

/-! ### PaymentService (services/paymentService.js) -/

/-- Outcome of the PayPal order-creation call. -/
inductive ProviderOrder
  | ok (orderId : String)
  | err (msg : String)
deriving DecidableEq, Repr

/-- Outcome of the PayPal capture call; anything other than a COMPLETED
result is thrown and caught (non-COMPLETED statuses included). -/
inductive ProviderCapture
  | completed (captureId : String)
  | failed (msg : String)
deriving DecidableEq, Repr

inductive CreateOrderResult
  | ok (paymentId : Nat) (orderId : String)
  | err (msg : String)
deriving DecidableEq, Repr

/-- PaymentService.createPaymentOrder.  The status gate runs before the
provider is contacted; on provider success a Payment(PENDING) is created and
the appointment is moved to `pending`. `newPaymentId` stands for the
store-generated _id of the created document. -/
def createPaymentOrder (provider : ProviderOrder) (newPaymentId : Nat) (db : DB)
    (appointmentId : Nat) (amount : Nat) : DB × List Effect × CreateOrderResult :=
  match db.appointments.find? (fun a => a.id == appointmentId) with
  | none => (db, [], .err "Appointment not found")
  | some appt =>
    if !(appt.status == .pending_payment || appt.status == .pending) then
      (db, [], .err "Appointment must be in pending_payment or pending status to process payment")
    else
      match provider with
      | .err m => (db, [Effect.providerCreateOrder], .err m)
      | .ok orderId =>
        let payment : Payment := { id := newPaymentId, appointmentId := appointmentId,
                                   amount := amount, paypalOrderId := some orderId,
                                   status := .PENDING }
        let db1 := { db with payments := db.payments ++ [payment] }
        let db2 := putAppointment db1 { appt with status := .pending }
        (db2, [Effect.providerCreateOrder, Effect.paymentSave .PENDING],
         .ok newPaymentId orderId)

inductive CaptureOutcome
  | ok (paymentId : Nat) (captureId : String)
  | err (msg : String)
deriving DecidableEq, Repr

/-- PaymentService.capturePayment.  No COMPLETED guard: whenever the provider
reports COMPLETED the Payment is (re)written to COMPLETED with fresh
transactionDetails and the appointment is (re)written to `pending`. -/
def capturePayment (provider : ProviderCapture) (db : DB) (orderId : String) :
    DB × List Effect × CaptureOutcome :=
  if orderId == "" then (db, [], .err "Order ID is required")
  else
    match db.payments.find? (fun p => p.paypalOrderId == some orderId) with
    | none => (db, [], .err "Payment record not found")
    | some p =>
      match provider with
      | .failed m => (db, [Effect.providerCapture], .err ("PayPal capture failed: " ++ m))
      | .completed cid =>
        let p1 := { p with status := .COMPLETED,
                           transactionDetails := some { captureId := cid } }
        let db1 := putPayment db p1
        let db2 :=
          match db1.appointments.find? (fun a => a.id == p.appointmentId) with
          | some a => putAppointment db1 { a with status := .pending }
          | none => db1
        (db2, [Effect.providerCapture, Effect.paymentSave .COMPLETED], .ok p.id cid)

/-! ### Calendar operations (controllers/calendarController.js) -/

inductive BlockResult
  | invalidTime
  | calendarNotFound
  | conflict       -- 400 'Cannot block slot with existing appointment'
  | ok
deriving DecidableEq, Repr

/-- Replace the first schedule entry with the given calendar date (removing
slots with the identical start/end pair, then pushing the blocked slot), or
append a fresh entry when none matches. -/
def upsertBlockedSlot (slot : CalendarSlot) (d : Nat) :
    List DateSchedule → List DateSchedule
  | [] => [{ date := d, slots := [slot], isHoliday := false }]
  | e :: es =>
    if epochDay e.date == epochDay d then
      { e with slots :=
          e.slots.filter (fun s => s.startTime != slot.startTime || s.endTime != slot.endTime)
          ++ [slot] } :: es
    else
      e :: upsertBlockedSlot slot d es

/-- exports.blockTimeSlot.  The appointment check uses `findOne`: only the
first pending/confirmed appointment of that doctor within [date, date+24h) is
examined against [startTime, endTime). -/
def blockTimeSlot (db : DB) (userId : Nat) (date : Nat)
    (startTime endTime : Nat) : DB × BlockResult :=
  if !(isValidTime startTime && isValidTime endTime) then (db, .invalidTime)
  else
    match db.calendars.find? (fun c => c.doctorId == userId) with
    | none => (db, .calendarNotFound)
    | some cal =>
      let existing := db.appointments.find? (fun a =>
        a.doctorId == userId &&
        decide (date ≤ a.dateTime) && decide (a.dateTime < date + msPerDay) &&
        (a.status == .pending || a.status == .confirmed))
      let conflictHit :=
        match existing with
        | some a => decide (startTime ≤ minuteOfDay a.dateTime)
                    && decide (minuteOfDay a.dateTime < endTime)
        | none => false
      if conflictHit then (db, .conflict)
      else
        let slot : CalendarSlot := { startTime := startTime, endTime := endTime,
                                     isBlocked := true, isBooked := false }
        (putCalendar db { cal with schedule := upsertBlockedSlot slot date cal.schedule }, .ok)

inductive SlotsResult
  | calendarNotFound
  | ok (available : List CalendarSlot) (isHoliday : Bool)
deriving DecidableEq, Repr

/-- The pending/confirmed appointments of a doctor on the calendar day
starting at `date` (the `$gte date, $lt date+1d` window). -/
def dayAppointments (db : DB) (doctorId : Nat) (date : Nat) : List Appointment :=
  db.appointments.filter (fun a =>
    a.doctorId == doctorId &&
    decide (date ≤ a.dateTime) && decide (a.dateTime < date + msPerDay) &&
    (a.status == .pending || a.status == .confirmed))

/-- The per-slot map in getAvailableSlots: recompute isBooked from the day's
live pending/confirmed appointments. -/
def annotateSlot (db : DB) (doctorId : Nat) (date : Nat) (s : CalendarSlot) : CalendarSlot :=
  { s with isBooked :=
      (dayAppointments db doctorId date).any (fun a => minuteOfDay a.dateTime == s.startTime) }

/-- The annotate / drop-blocked / sort pipeline applied to the resolved base
slots in getAvailableSlots. -/
def processSlots (db : DB) (doctorId : Nat) (date : Nat)
    (base : List CalendarSlot) : List CalendarSlot :=
  ((base.map (annotateSlot db doctorId date)).filter
      (fun s => !s.isBlocked)).mergeSort (fun a b => decide (a.startTime ≤ b.startTime))

/-- exports.getAvailableSlots.  Resolution: the dated entry when present and
not a holiday, else (only when no dated entry exists) the weekday default when
isWorking, else no slots; then isBooked is recomputed from live appointments,
blocked slots are dropped and the rest sorted by startTime. -/
def getAvailableSlots (db : DB) (doctorId : Nat) (date : Nat) : SlotsResult :=
  match db.calendars.find? (fun c => c.doctorId == doctorId) with
  | none => .calendarNotFound
  | some cal =>
    let daySchedule := cal.schedule.find? (fun s => epochDay s.date == epochDay date)
    let defaultSchedule := cal.defaultWorkingHours.find? (fun h => h.day == dayName (jsGetDay date))
    let base : List CalendarSlot :=
      match daySchedule with
      | some ds => if ds.isHoliday then [] else ds.slots
      | none =>
        match defaultSchedule with
        | some d => if d.isWorking then d.slots else []
        | none => []
    .ok (processSlots db doctorId date base)
      (match daySchedule with | some ds => ds.isHoliday | none => false)

/-! ### Concrete sample store for the calendar read model -/

/-- A sample calendar: one dated entry (epoch day 20000, a Friday) holding a
10:00-10:30 slot, a 09:00-09:30 slot and a blocked 09:30-10:00 slot. -/
def c8cal : DoctorCalendar :=
  { doctorId := 20,
    schedule := [{ date := 86400000 * 20000,
                   slots := [{ startTime := 600, endTime := 630 },
                             { startTime := 540, endTime := 570 },
                             { slotId := 9, startTime := 570, endTime := 600,
                               isBlocked := true }] }],
    defaultWorkingHours := [] }

/-- A sample store: the calendar above plus one pending appointment at 09:00
on that day. -/
def c8db : DB :=
  { appointments := [{ id := 4, patientId := 12, doctorId := 20,
                       dateTime := 86400000 * 20000 + 540 * 60000,
                       status := .pending }],
    calendars := [c8cal] }

/-! ## Helper lemmas -/

/-- A by-id `save()` makes the saved document the first (hence only observed)
hit of a subsequent by-id `findOne`, provided a hit existed before. -/
theorem find?_map_replace {α : Type} (key : α → Nat) (id : Nat) (a' : α)
    (h' : key a' = id) :
    ∀ (l : List α) (a : α), l.find? (fun x => key x == id) = some a →
      (l.map (fun x => if key x == id then a' else x)).find? (fun x => key x == id) = some a' := by
  intro l
  induction l with
  | nil =>
    intro a h
    simp at h
  | cons x xs ih =>
    intro a h
    by_cases hx : key x = id
    · simp [hx, h']
    · have hpx : (key x == id) = false := by simp [hx]
      simp only [List.find?_cons, hpx] at h
      simp only [List.map_cons, List.find?_cons, hpx, Bool.false_eq_true, if_false]
      exact ih a h

/-- Reading an appointment's status after `putAppointment` of a same-id doc. -/
theorem apptStatus_putAppointment (db : DB) (a a' : Appointment) (apptId : Nat)
    (h : db.appointments.find? (fun x => x.id == apptId) = some a)
    (h' : a'.id = a.id) :
    apptStatus (putAppointment db a') apptId = some a'.status := by
  have hid : a.id = apptId := by simpa using List.find?_some h
  have h'' : a'.id = apptId := h'.trans hid
  unfold apptStatus putAppointment
  simp only [h'']
  rw [find?_map_replace Appointment.id apptId a' h'' db.appointments a h]
  rfl

/-- Reading a payment after `putPayment` of a same-id doc. -/
theorem paymentById_putPayment (db : DB) (p p' : Payment)
    (h : db.payments.find? (fun x => x.id == p.id) = some p)
    (h' : p'.id = p.id) :
    paymentById (putPayment db p') p.id = some p' := by
  unfold paymentById putPayment
  simp only [h']
  exact find?_map_replace Payment.id p.id p' h' db.payments p h

/-! ## C1 -/

/-- C1: the claim says a cancellation whose refund fails is still persisted
with status = cancelled (with cancellationReason and cancelledBy recorded).
The code instead returns 200 "cancelled but refund processing failed" from
inside the catch, before `appointment.status = status; await appointment.save()`
ever runs: the store still holds the old status and no cancellation metadata,
contradicting the code's own comment "Still cancel the appointment". -/
theorem c1_refund_failure_leaves_cancellation_unpersisted :
    (updateAppointmentStatus { refundProvider := .err "provider down" }
        { appointments := [{ id := 1, patientId := 10, doctorId := 20,
                             dateTime := 1750000000000, status := .confirmed }],
          payments := [{ id := 5, appointmentId := 1, amount := 50,
                         paypalOrderId := some "ORD", status := .COMPLETED }] }
        1 10 .patient .cancelled "sick").2.2
      = .cancelledRefundFailed "provider down" ∧
    apptStatus
      (updateAppointmentStatus { refundProvider := .err "provider down" }
        { appointments := [{ id := 1, patientId := 10, doctorId := 20,
                             dateTime := 1750000000000, status := .confirmed }],
          payments := [{ id := 5, appointmentId := 1, amount := 50,
                         paypalOrderId := some "ORD", status := .COMPLETED }] }
        1 10 .patient .cancelled "sick").1 1
      = some .confirmed ∧
    ((updateAppointmentStatus { refundProvider := .err "provider down" }
        { appointments := [{ id := 1, patientId := 10, doctorId := 20,
                             dateTime := 1750000000000, status := .confirmed }],
          payments := [{ id := 5, appointmentId := 1, amount := 50,
                         paypalOrderId := some "ORD", status := .COMPLETED }] }
        1 10 .patient .cancelled "sick").1.appointments.find? (fun a => a.id == 1)).map
        (fun a => (a.cancellationReason, a.cancelledBy))
      = some (none, none) := by
  decide

/-! ## C3 -/

/-- C3: the claim says a second capturePayment on an already-COMPLETED Payment
is a no-op (exactly one COMPLETED mutation, appointment unaffected).  The
code has no COMPLETED guard: it re-runs the provider capture and, when the
provider again reports COMPLETED, saves the Payment a second time (overwriting
transactionDetails.captureId) and rewrites the appointment — here already
`confirmed` — back to `pending`. -/
theorem c3_second_capture_mutates_payment_and_appointment :
    (capturePayment (.completed "CAP2")
        { appointments := [{ id := 1, patientId := 10, doctorId := 20,
                             dateTime := 1750000000000, status := .confirmed }],
          payments := [{ id := 5, appointmentId := 1, amount := 50,
                         paypalOrderId := some "ORD", status := .COMPLETED,
                         transactionDetails := some { captureId := "CAP1" } }] }
        "ORD").2.2 = .ok 5 "CAP2" ∧
    Effect.paymentSave .COMPLETED ∈
      (capturePayment (.completed "CAP2")
        { appointments := [{ id := 1, patientId := 10, doctorId := 20,
                             dateTime := 1750000000000, status := .confirmed }],
          payments := [{ id := 5, appointmentId := 1, amount := 50,
                         paypalOrderId := some "ORD", status := .COMPLETED,
                         transactionDetails := some { captureId := "CAP1" } }] }
        "ORD").2.1 ∧
    (paymentById
      (capturePayment (.completed "CAP2")
        { appointments := [{ id := 1, patientId := 10, doctorId := 20,
                             dateTime := 1750000000000, status := .confirmed }],
          payments := [{ id := 5, appointmentId := 1, amount := 50,
                         paypalOrderId := some "ORD", status := .COMPLETED,
                         transactionDetails := some { captureId := "CAP1" } }] }
        "ORD").1 5).map (fun p => p.transactionDetails)
      = some (some { captureId := "CAP2" }) ∧
    apptStatus
      (capturePayment (.completed "CAP2")
        { appointments := [{ id := 1, patientId := 10, doctorId := 20,
                             dateTime := 1750000000000, status := .confirmed }],
          payments := [{ id := 5, appointmentId := 1, amount := 50,
                         paypalOrderId := some "ORD", status := .COMPLETED,
                         transactionDetails := some { captureId := "CAP1" } }] }
        "ORD").1 1 = some .pending := by
  decide

/-! ## C2 -/

/-- C2 counterexample: the claim requires that from the terminal status
`completed` every transition leaves the state unchanged and raises an error.
In the code updateAppointmentStatus never consults the current status: the
appointment's own doctor requesting `confirmed` on a completed appointment
succeeds and overwrites the stored status. -/
theorem c2_counterexample_completed_to_confirmed :
    let db : DB := { appointments := [{ id := 1, patientId := 10, doctorId := 20,
                                        dateTime := 1750000000000, status := .completed }] }
    (updateAppointmentStatus {} db 1 20 .doctor .confirmed "x").2.2 = .ok ∧
    apptStatus (updateAppointmentStatus {} db 1 20 .doctor .confirmed "x").1 1
      = some .confirmed := by
  decide

/-! ## C4 -/

/-- C4 counterexample: the claim says processRefund on a Payment that is not
COMPLETED (e.g. already REFUNDED) fails and leaves the Payment unchanged.
The code's catch block handles its own validation throw and — `payment` being
in scope — persists status = REFUND_FAILED: the already-refunded Payment is
mutated. -/
theorem c4_counterexample_refunded_payment_mutated :
    let db : DB := { payments := [{ id := 5, appointmentId := 1, amount := 50,
                                    status := .REFUNDED }] }
    (processRefund (.ok "R9") true db 1 "duplicate request").2.2
      = .error .alreadyRefunded ∧
    paymentById (processRefund (.ok "R9") true db 1 "duplicate request").1 5
      = some { id := 5, appointmentId := 1, amount := 50, status := .REFUND_FAILED } := by
  decide

/-! ## C5 -/

/-- C5 counterexample: the claim says an existing non-terminal appointment of
the same doctor starting exactly at newDateTime is a conflict.  The conflict
query uses a strict `$gt: newDateTime`, so an appointment with
dateTime = newDateTime is not matched and the reschedule succeeds, moving the
appointment onto the occupied instant. -/
theorem c5_counterexample_exact_start_overlap_allowed :
    let appt : Appointment := { id := 1, patientId := 10, doctorId := 20,
                                dateTime := 1750000000000, duration := 30, status := .pending }
    let other : Appointment := { id := 2, patientId := 11, doctorId := 20,
                                 dateTime := 1750003600000, status := .confirmed }
    let db : DB := { appointments := [appt, other] }
    (requestReschedule db 1 10 .patient 1750003600000 "conflict please").2 = .ok ∧
    ((requestReschedule db 1 10 .patient 1750003600000 "conflict please").1.appointments.find?
        (fun a => a.id == 1)).map (fun a => (a.dateTime, a.status))
      = some (1750003600000, .pending) := by
  decide

/-! ## C6 -/

/-- C6 counterexample: the claim says blocking fails with Conflict whenever at
least one non-terminal appointment that day falls inside [startTime,endTime),
"not only when it is the first appointment found".  The code uses `findOne`
and tests only that single document: with a 14:00 appointment first in the
collection and a conflicting 09:30 appointment second, blocking 09:00-10:00
succeeds and mutates the calendar. -/
theorem c6_counterexample_conflicting_second_appointment_ignored :
    let d : Nat := 86400000 * 20000
    let aptLate : Appointment := { id := 3, patientId := 11, doctorId := 20,
                                   dateTime := d + 840 * 60000, status := .confirmed }
    let aptClash : Appointment := { id := 4, patientId := 12, doctorId := 20,
                                    dateTime := d + 570 * 60000, status := .confirmed }
    let db : DB := { appointments := [aptLate, aptClash],
                     calendars := [{ doctorId := 20, schedule := [],
                                     defaultWorkingHours := [] }] }
    (aptClash ∈ db.appointments ∧ aptClash.doctorId = 20 ∧
      d ≤ aptClash.dateTime ∧ aptClash.dateTime < d + msPerDay ∧
      aptClash.status = .confirmed ∧
      540 ≤ minuteOfDay aptClash.dateTime ∧ minuteOfDay aptClash.dateTime < 600) ∧
    (blockTimeSlot db 20 d 540 600).2 = .ok ∧
    (blockTimeSlot db 20 d 540 600).1.calendars ≠ db.calendars := by
  decide

/-! ## C7 -/

/-- C7 counterexample: the claim says a dispatcher failure is always caught
and logged, never failing the request and never preventing the status write.
For a `confirmed` transition the code awaits sendAppointmentEmails before the
save with no local catch: the throw reaches the outer handler, the request
fails, and the status write never happens. -/
theorem c7_counterexample_confirm_email_failure_propagates :
    let db : DB := { appointments := [{ id := 1, patientId := 10, doctorId := 20,
                                        dateTime := 1750000000000, status := .pending }] }
    (updateAppointmentStatus { confirmEmailOk := false } db 1 20 .doctor .confirmed "x").2.2
      = .serverError ∧
    (updateAppointmentStatus { confirmEmailOk := false } db 1 20 .doctor .confirmed "x").1 = db ∧
    apptStatus (updateAppointmentStatus { confirmEmailOk := false } db 1 20 .doctor .confirmed "x").1 1
      = some .pending := by
  decide

/-- C4 (amended): processRefund fails without touching the store only when no
Payment exists for the appointment.  On a Payment already REFUNDED it fails
but persists status = REFUND_FAILED (the catch block mutates on every
post-lookup failure).  On success — provider refund granted and the
notification email not throwing — the Payment becomes REFUNDED with
refundDetails.amount equal to the original payment amount. -/
theorem c4_amended_processRefund (provider : ProviderRefund) (emailOk : Bool)
    (db : DB) (apptId : Nat) (reason : String) :
    (db.payments.find? (fun p => p.appointmentId == apptId) = none →
      processRefund provider emailOk db apptId reason = (db, [], .error .notFound)) ∧
    (∀ p, db.payments.find? (fun p => p.appointmentId == apptId) = some p →
      paymentById db p.id = some p →
      p.status = .REFUNDED →
      (processRefund provider emailOk db apptId reason).2.2 = .error .alreadyRefunded ∧
      paymentById (processRefund provider emailOk db apptId reason).1 p.id
        = some { p with status := .REFUND_FAILED }) ∧
    (∀ p rid, db.payments.find? (fun p => p.appointmentId == apptId) = some p →
      paymentById db p.id = some p →
      p.status ≠ .REFUNDED → provider = .ok rid → emailOk = true →
      (processRefund provider emailOk db apptId reason).2.2
        = .ok { refundId := rid, amount := p.amount } ∧
      paymentById (processRefund provider emailOk db apptId reason).1 p.id
        = some { p with
            status := .REFUNDED,
            refundDetails := some { refundId := rid, reason := reason,
                                    status := "COMPLETED", amount := p.amount } }) := by
  refine ⟨?_, ?_, ?_⟩
  · intro h
    simp [processRefund, h]
  · intro p hf hbyid hst
    have hbeq : (p.status == PaymentStatus.REFUNDED) = true := by simp [hst]
    constructor
    · simp [processRefund, hf, hbeq]
    · have := paymentById_putPayment db p { p with status := .REFUND_FAILED } hbyid rfl
      simp only [processRefund, hf, hbeq, if_true]
      simpa using this
  · intro p rid hf hbyid hst hprov hmail
    subst hprov hmail
    have hbeq : (p.status == PaymentStatus.REFUNDED) = false := by
      simp [hst]
    constructor
    · simp [processRefund, hf, hbeq]
    · have hput := paymentById_putPayment db p
        { p with
          status := .REFUNDED,
          refundDetails := some { refundId := rid, reason := reason,
                                  status := "COMPLETED", amount := p.amount } } hbyid rfl
      simp only [processRefund, hf, hbeq, Bool.false_eq_true, if_false, if_true]
      simpa using hput

/-- C4 witness: the amended theorem at a concrete store — a COMPLETED
payment of 50 is refunded in full. -/
theorem c4_amended_processRefund_witness :
    (processRefund (.ok "R7") true
        { payments := [{ id := 5, appointmentId := 1, amount := 50,
                         status := .COMPLETED }] } 1 "patient cancelled").2.2
      = .ok { refundId := "R7", amount := 50 } ∧
    paymentById (processRefund (.ok "R7") true
        { payments := [{ id := 5, appointmentId := 1, amount := 50,
                         status := .COMPLETED }] } 1 "patient cancelled").1 5
      = some { id := 5, appointmentId := 1, amount := 50, status := .REFUNDED,
               refundDetails := some { refundId := "R7", reason := "patient cancelled",
                                       status := "COMPLETED", amount := 50 } } := by
  have h := (c4_amended_processRefund (.ok "R7") true
      { payments := [{ id := 5, appointmentId := 1, amount := 50,
                       status := .COMPLETED }] } 1 "patient cancelled").2.2
    { id := 5, appointmentId := 1, amount := 50, status := .COMPLETED } "R7"
    (by decide) (by decide) (by decide) rfl rfl
  simpa using h

/-- C5 (amended): requestReschedule by the owning patient uses the strict
open interval (newDateTime, newDateTime + duration·60000) against the other
pending/confirmed appointments of the doctor: precisely when such an
appointment has dateTime strictly inside, the call fails with Conflict and the
store is unchanged; an appointment starting exactly at newDateTime is not
treated as a conflict.  On the no-conflict side, rescheduledFrom is set to the
old dateTime, dateTime becomes newDateTime and status becomes pending. -/
theorem c5_amended_reschedule_strict_overlap (db : DB) (apptId userId newDT : Nat)
    (reason : String) (a : Appointment)
    (hfind : db.appointments.find? (fun x => x.id == apptId) = some a)
    (howner : a.patientId = userId) :
    ((∃ c ∈ db.appointments,
        (c.doctorId == a.doctorId && c.id != a.id &&
          (c.status == .pending || c.status == .confirmed) &&
          decide (c.dateTime < newDT + a.duration * 60000) &&
          decide (newDT < c.dateTime)) = true) →
      requestReschedule db apptId userId .patient newDT reason = (db, .conflict)) ∧
    ((∀ c ∈ db.appointments,
        (c.doctorId == a.doctorId && c.id != a.id &&
          (c.status == .pending || c.status == .confirmed) &&
          decide (c.dateTime < newDT + a.duration * 60000) &&
          decide (newDT < c.dateTime)) = false) →
      (requestReschedule db apptId userId .patient newDT reason).2 = .ok ∧
      (requestReschedule db apptId userId .patient newDT reason).1.appointments.find?
          (fun x => x.id == apptId)
        = some { a with
            rescheduledFrom := some a.dateTime,
            dateTime := newDT,
            status := .pending }) := by
  have hid : a.id = apptId := by simpa using List.find?_some hfind
  constructor
  · intro hex
    have hsome : (db.appointments.find? (fun c =>
        c.doctorId == a.doctorId && c.id != a.id &&
          (c.status == .pending || c.status == .confirmed) &&
          decide (c.dateTime < newDT + a.duration * 60000) &&
          decide (newDT < c.dateTime))).isSome := by
      rw [List.find?_isSome]
      obtain ⟨c, hc, hcp⟩ := hex
      exact ⟨c, hc, hcp⟩
    obtain ⟨v, hv⟩ := Option.isSome_iff_exists.mp hsome
    simp [requestReschedule, hfind, howner, hv]
  · intro hall
    have hnone : db.appointments.find? (fun c =>
        c.doctorId == a.doctorId && c.id != a.id &&
          (c.status == .pending || c.status == .confirmed) &&
          decide (c.dateTime < newDT + a.duration * 60000) &&
          decide (newDT < c.dateTime)) = none := by
      rw [List.find?_eq_none]
      intro c hc
      simp [hall c hc]
    have hput := find?_map_replace Appointment.id apptId
      { a with rescheduledFrom := some a.dateTime, dateTime := newDT, status := .pending }
      hid db.appointments a hfind
    constructor
    · simp [requestReschedule, hfind, howner, hnone]
    · simp only [requestReschedule, hfind, howner, hnone]
      simpa [requestReschedule, hfind, howner, hnone, putAppointment, hid] using hput

/-- C5 witness: the amended theorem at a concrete store — a conflicting
confirmed appointment strictly inside the interval makes the reschedule fail
with the store unchanged. -/
theorem c5_amended_reschedule_witness :
    requestReschedule
        { appointments := [{ id := 1, patientId := 10, doctorId := 20,
                             dateTime := 1750000000000, duration := 30, status := .pending },
                           { id := 2, patientId := 11, doctorId := 20,
                             dateTime := 1750003660000, status := .confirmed }] }
        1 10 .patient 1750003600000 "move me"
      = ({ appointments := [{ id := 1, patientId := 10, doctorId := 20,
                              dateTime := 1750000000000, duration := 30, status := .pending },
                            { id := 2, patientId := 11, doctorId := 20,
                              dateTime := 1750003660000, status := .confirmed }] }, .conflict) := by
  have h := (c5_amended_reschedule_strict_overlap
      { appointments := [{ id := 1, patientId := 10, doctorId := 20,
                           dateTime := 1750000000000, duration := 30, status := .pending },
                         { id := 2, patientId := 11, doctorId := 20,
                           dateTime := 1750003660000, status := .confirmed }] }
      1 10 1750003600000 "move me"
      { id := 1, patientId := 10, doctorId := 20,
        dateTime := 1750000000000, duration := 30, status := .pending }
      (by decide) (by decide)).1
  exact h (by decide)

/-- C6 (amended): the blockTimeSlot conflict check inspects only the first
pending/confirmed appointment of that doctor within [date, date+24h) in the
collection (a `findOne`): the call fails with Conflict — leaving the store
unchanged — exactly when that one appointment's time-of-day lies in
[startTime, endTime); when it does not, the block proceeds even if a later
appointment in the collection does conflict. -/
theorem c6_amended_block_checks_first_only (db : DB) (userId date startT endT : Nat)
    (hs : startT < 1440) (he : endT < 1440)
    (cal : DoctorCalendar)
    (hcal : db.calendars.find? (fun c => c.doctorId == userId) = some cal)
    (a : Appointment)
    (hfirst : db.appointments.find? (fun x =>
        x.doctorId == userId && decide (date ≤ x.dateTime) &&
        decide (x.dateTime < date + msPerDay) &&
        (x.status == .pending || x.status == .confirmed)) = some a) :
    (startT ≤ minuteOfDay a.dateTime → minuteOfDay a.dateTime < endT →
      blockTimeSlot db userId date startT endT = (db, .conflict)) ∧
    (¬(startT ≤ minuteOfDay a.dateTime ∧ minuteOfDay a.dateTime < endT) →
      (blockTimeSlot db userId date startT endT).2 = .ok) := by
  constructor
  · intro h1 h2
    simp [blockTimeSlot, isValidTime, hs, he, hcal, hfirst, h1, h2]
  · intro hno
    rcases Decidable.not_and_iff_or_not.mp hno with h | h
    · simp [blockTimeSlot, isValidTime, hs, he, hcal, hfirst, h]
    · simp [blockTimeSlot, isValidTime, hs, he, hcal, hfirst, h]

/-- C6 witness: the amended theorem at a concrete store — the single
pending appointment of the day sits at 09:30, inside the blocked window
09:00-10:00, so blocking fails with Conflict and the store is unchanged. -/
theorem c6_amended_block_witness :
    blockTimeSlot
        { appointments := [{ id := 4, patientId := 12, doctorId := 20,
                             dateTime := 86400000 * 20000 + 570 * 60000, status := .pending }],
          calendars := [{ doctorId := 20, schedule := [], defaultWorkingHours := [] }] }
        20 (86400000 * 20000) 540 600
      = ({ appointments := [{ id := 4, patientId := 12, doctorId := 20,
                              dateTime := 86400000 * 20000 + 570 * 60000, status := .pending }],
           calendars := [{ doctorId := 20, schedule := [], defaultWorkingHours := [] }] },
         .conflict) := by
  have h := (c6_amended_block_checks_first_only
      { appointments := [{ id := 4, patientId := 12, doctorId := 20,
                           dateTime := 86400000 * 20000 + 570 * 60000, status := .pending }],
        calendars := [{ doctorId := 20, schedule := [], defaultWorkingHours := [] }] }
      20 (86400000 * 20000) 540 600 (by decide) (by decide)
      { doctorId := 20, schedule := [], defaultWorkingHours := [] } (by decide)
      { id := 4, patientId := 12, doctorId := 20,
        dateTime := 86400000 * 20000 + 570 * 60000, status := .pending }
      (by decide)).1
  exact h (by decide) (by decide)

/-- C9: createPaymentOrder's status gate runs before any provider contact:
for an appointment in a status other than pending_payment/pending it returns
the BadRequest error with the store untouched and an empty effect trace (no
provider call, no Payment created); when the status is allowed and the
provider opens the order, a Payment(PENDING) correlated by the provider order
id is appended and the appointment's status is set to pending. -/
theorem c9_create_order_status_gate (provider : ProviderOrder) (newPaymentId : Nat)
    (db : DB) (appointmentId amount : Nat) (a : Appointment)
    (hfind : db.appointments.find? (fun x => x.id == appointmentId) = some a) :
    (a.status ≠ .pending_payment → a.status ≠ .pending →
      createPaymentOrder provider newPaymentId db appointmentId amount
        = (db, [],
           .err "Appointment must be in pending_payment or pending status to process payment")) ∧
    (∀ orderId, (a.status = .pending_payment ∨ a.status = .pending) →
      provider = .ok orderId →
      (createPaymentOrder provider newPaymentId db appointmentId amount).2.2
        = .ok newPaymentId orderId ∧
      (createPaymentOrder provider newPaymentId db appointmentId amount).1.payments
        = db.payments ++ [{ id := newPaymentId, appointmentId := appointmentId,
                            amount := amount, paypalOrderId := some orderId,
                            status := .PENDING }] ∧
      apptStatus (createPaymentOrder provider newPaymentId db appointmentId amount).1
          appointmentId
        = some .pending) := by
  constructor
  · intro h1 h2
    have hgate : (a.status == AppointmentStatus.pending_payment
        || a.status == AppointmentStatus.pending) = false := by
      simp [h1, h2]
    simp [createPaymentOrder, hfind, hgate]
  · intro orderId hallowed hprov
    subst hprov
    have hgate : (a.status == AppointmentStatus.pending_payment
        || a.status == AppointmentStatus.pending) = true := by
      rcases hallowed with h | h <;> simp [h]
    have hfind1 :
        (DB.mk db.appointments
          (db.payments ++ [{ id := newPaymentId, appointmentId := appointmentId,
                             amount := amount, paypalOrderId := some orderId,
                             status := .PENDING }]) db.calendars).appointments.find?
          (fun x => x.id == appointmentId) = some a := hfind
    have hput := apptStatus_putAppointment _ a { a with status := .pending } appointmentId
      hfind1 rfl
    refine ⟨by simp [createPaymentOrder, hfind, hgate], ?_, ?_⟩
    · simp [createPaymentOrder, hfind, hgate, putAppointment]
    · simpa [createPaymentOrder, hfind, hgate] using hput

/-- C9 witness: the theorem at a concrete store — a pending_payment
appointment, provider opens order "ORD-9": Payment(PENDING) appended, the
appointment moved to pending. -/
theorem c9_create_order_witness :
    (createPaymentOrder (.ok "ORD-9") 7
        { appointments := [{ id := 1, patientId := 10, doctorId := 20,
                             dateTime := 1750000000000, status := .pending_payment }] }
        1 50).2.2 = .ok 7 "ORD-9" ∧
    (createPaymentOrder (.ok "ORD-9") 7
        { appointments := [{ id := 1, patientId := 10, doctorId := 20,
                             dateTime := 1750000000000, status := .pending_payment }] }
        1 50).1.payments
      = [{ id := 7, appointmentId := 1, amount := 50, paypalOrderId := some "ORD-9",
           status := .PENDING }] ∧
    apptStatus (createPaymentOrder (.ok "ORD-9") 7
        { appointments := [{ id := 1, patientId := 10, doctorId := 20,
                             dateTime := 1750000000000, status := .pending_payment }] }
        1 50).1 1 = some .pending := by
  have h := (c9_create_order_status_gate (.ok "ORD-9") 7
      { appointments := [{ id := 1, patientId := 10, doctorId := 20,
                           dateTime := 1750000000000, status := .pending_payment }] }
      1 50
      { id := 1, patientId := 10, doctorId := 20,
        dateTime := 1750000000000, status := .pending_payment }
      (by decide)).2 "ORD-9" (Or.inl rfl) rfl
  simpa using h

/-- C10: every successful capture writes the associated appointment's status
to pending unconditionally — the hypotheses say nothing about the
appointment's prior status, so the write happens even when it was already
confirmed (or in any other state) when the capture or its webhook retry
lands. -/
theorem c10_capture_overwrites_appointment_to_pending
    (db : DB) (orderId cid : String) (p : Payment) (a : Appointment)
    (hord : orderId ≠ "")
    (hfind : db.payments.find? (fun q => q.paypalOrderId == some orderId) = some p)
    (happt : db.appointments.find? (fun x => x.id == p.appointmentId) = some a) :
    apptStatus (capturePayment (.completed cid) db orderId).1 p.appointmentId
      = some .pending ∧
    (capturePayment (.completed cid) db orderId).2.2 = .ok p.id cid := by
  have hordb : (orderId == "") = false := by simp [hord]
  have happt1 : (putPayment db { p with
      status := .COMPLETED,
      transactionDetails := some { captureId := cid } }).appointments.find?
        (fun x => x.id == p.appointmentId) = some a := happt
  have hput := apptStatus_putAppointment _ a { a with status := .pending } p.appointmentId
    happt1 rfl
  constructor
  · simpa [capturePayment, hordb, hfind, happt1] using hput
  · simp [capturePayment, hordb, hfind]

/-- C10 witness: the theorem at a concrete store — the appointment is already
confirmed; the (repeat) capture rewrites it to pending. -/
theorem c10_capture_overwrites_witness :
    apptStatus (capturePayment (.completed "CAPX")
        { appointments := [{ id := 1, patientId := 10, doctorId := 20,
                             dateTime := 1750000000000, status := .confirmed }],
          payments := [{ id := 5, appointmentId := 1, amount := 50,
                         paypalOrderId := some "ORD", status := .COMPLETED }] }
        "ORD").1 1 = some .pending := by
  have h := (c10_capture_overwrites_appointment_to_pending
      { appointments := [{ id := 1, patientId := 10, doctorId := 20,
                           dateTime := 1750000000000, status := .confirmed }],
        payments := [{ id := 5, appointmentId := 1, amount := 50,
                       paypalOrderId := some "ORD", status := .COMPLETED }] }
      "ORD" "CAPX"
      { id := 5, appointmentId := 1, amount := 50,
        paypalOrderId := some "ORD", status := .COMPLETED }
      { id := 1, patientId := 10, doctorId := 20,
        dateTime := 1750000000000, status := .confirmed }
      (by decide) (by decide) (by decide)).1
  simpa using h

/-- The write-and-notify tail with a succeeding notification call: status
persisted, 200 returned, dispatcher invoked with the event type. -/
theorem finishStatusWrite_spec (db : DB) (tr : List Effect) (doc : Appointment)
    (ns : AppointmentStatus) (apptId : Nat) (a : Appointment)
    (hfind : db.appointments.find? (fun x => x.id == apptId) = some a)
    (hdocid : doc.id = a.id) :
    apptStatus (finishStatusWrite true db tr doc ns).1 apptId = some ns ∧
    (finishStatusWrite true db tr doc ns).2.2 = .ok ∧
    Effect.notifyAppointment ("appointment_" ++ ns.key)
      ∈ (finishStatusWrite true db tr doc ns).2.1 := by
  refine ⟨?_, rfl, ?_⟩
  · have h := apptStatus_putAppointment db a { doc with status := ns } apptId hfind hdocid
    simpa [finishStatusWrite] using h
  · simp [finishStatusWrite]

/-- Success path of updateAppointmentStatus: the requester passes the
ownership/role checks and every external call succeeds (for a cancellation, a
refundable payment exists).  Then the requested status is persisted — with no
condition on the previous status — the call returns 200, and the dispatcher
is invoked with `appointment_{newStatus}`. -/
theorem updateStatus_success_run
    (db : DB) (apptId userId : Nat) (role : Role) (ns : AppointmentStatus)
    (reason : String) (o : UpdateOracles) (rid : String)
    (hprov : o.refundProvider = .ok rid)
    (hre : o.refundEmailOk = true) (hce : o.cancelEmailOk = true)
    (hcf : o.confirmEmailOk = true) (hno : o.notifyOk = true)
    (a : Appointment)
    (hfind : db.appointments.find? (fun x => x.id == apptId) = some a)
    (hdoc : role = .doctor → a.doctorId = userId)
    (hpat : role = .patient → a.patientId = userId)
    (hconf : ns = .confirmed → role = .doctor)
    (hpay : ns = .cancelled → ∃ p,
      db.payments.find? (fun q => q.appointmentId == a.id) = some p ∧
      p.status ≠ .REFUNDED) :
    apptStatus (updateAppointmentStatus o db apptId userId role ns reason).1 apptId
      = some ns ∧
    (updateAppointmentStatus o db apptId userId role ns reason).2.2 = .ok ∧
    Effect.notifyAppointment ("appointment_" ++ ns.key)
      ∈ (updateAppointmentStatus o db apptId userId role ns reason).2.1 := by
  have hc1 : (role == Role.doctor && a.doctorId != userId) = false := by
    cases role
    · simp
    · simp [hdoc rfl]
  have hc2 : (role == Role.patient && a.patientId != userId) = false := by
    cases role
    · simp [hpat rfl]
    · simp
  have hc3 : (ns == AppointmentStatus.confirmed && role != Role.doctor) = false := by
    by_cases h : ns = .confirmed
    · simp [h, hconf h]
    · simp [h]
  by_cases hns : ns = AppointmentStatus.cancelled
  · subst hns
    obtain ⟨p, hp, hpst⟩ := hpay rfl
    have hpbeq : (p.status == PaymentStatus.REFUNDED) = false := by simp [hpst]
    simp only [updateAppointmentStatus, hfind, hc1, hc2, hc3, Bool.false_eq_true,
      if_false, beq_self_eq_true, if_true, hprov, hre, hce, hno,
      processRefund, hp, hpbeq]
    exact finishStatusWrite_spec _ _ _ _ apptId a hfind rfl
  · by_cases hns' : ns = AppointmentStatus.confirmed
    · subst hns'
      simp only [updateAppointmentStatus, hfind, hc1, hc2, hc3, Bool.false_eq_true,
        if_false, if_true, hcf, hno]
      have hne : (AppointmentStatus.confirmed == AppointmentStatus.cancelled) = false := by
        decide
      simp only [hne, Bool.false_eq_true, if_false, beq_self_eq_true, if_true]
      exact finishStatusWrite_spec _ _ _ _ apptId a hfind rfl
    · have hb1 : (ns == AppointmentStatus.cancelled) = false := by simp [hns]
      have hb2 : (ns == AppointmentStatus.confirmed) = false := by simp [hns']
      simp only [updateAppointmentStatus, hfind, hc1, hc2, hc3, Bool.false_eq_true,
        if_false, hb1, hb2, hno]
      exact finishStatusWrite_spec _ _ _ _ apptId a hfind rfl

/-- C2 (amended): updateStatus enforces only lookup and authorization
preconditions — the requester must be the appointment's doctor or patient,
and only the doctor may set `confirmed`; each failing precondition leaves the
store unchanged and returns an error.  The current status is never consulted:
when authorization passes and the side-effect calls succeed, the requested
status is written even from a terminal status such as `completed`. -/
theorem c2_amended_update_status_auth_only
    (db : DB) (apptId userId : Nat) (role : Role) (ns : AppointmentStatus)
    (reason : String) (o : UpdateOracles) (rid : String)
    (hprov : o.refundProvider = .ok rid)
    (hre : o.refundEmailOk = true) (hce : o.cancelEmailOk = true)
    (hcf : o.confirmEmailOk = true) (hno : o.notifyOk = true) :
    (db.appointments.find? (fun x => x.id == apptId) = none →
      updateAppointmentStatus o db apptId userId role ns reason = (db, [], .notFound)) ∧
    (∀ a, db.appointments.find? (fun x => x.id == apptId) = some a →
      ((role = .doctor ∧ a.doctorId ≠ userId) ∨ (role = .patient ∧ a.patientId ≠ userId)) →
      updateAppointmentStatus o db apptId userId role ns reason
        = (db, [], .forbiddenNotOwner)) ∧
    (∀ a, db.appointments.find? (fun x => x.id == apptId) = some a →
      (role = .doctor → a.doctorId = userId) → (role = .patient → a.patientId = userId) →
      ns = .confirmed → role ≠ .doctor →
      updateAppointmentStatus o db apptId userId role ns reason
        = (db, [], .forbiddenConfirmNotDoctor)) ∧
    (∀ a, db.appointments.find? (fun x => x.id == apptId) = some a →
      (role = .doctor → a.doctorId = userId) → (role = .patient → a.patientId = userId) →
      (ns = .confirmed → role = .doctor) →
      (ns = .cancelled → ∃ p,
        db.payments.find? (fun q => q.appointmentId == a.id) = some p ∧
        p.status ≠ .REFUNDED) →
      apptStatus (updateAppointmentStatus o db apptId userId role ns reason).1 apptId
        = some ns ∧
      (updateAppointmentStatus o db apptId userId role ns reason).2.2 = .ok) := by
  refine ⟨?_, ?_, ?_, ?_⟩
  · intro h
    simp [updateAppointmentStatus, h]
  · intro a hfind hbad
    rcases hbad with ⟨hrole, hne⟩ | ⟨hrole, hne⟩
    · subst hrole
      simp [updateAppointmentStatus, hfind, hne]
    · subst hrole
      simp [updateAppointmentStatus, hfind, hne]
  · intro a hfind hdoc hpat hns hrole
    have hrp : role = .patient := by cases role <;> simp_all
    subst hrp hns
    have hc1 : (Role.patient == Role.doctor && a.doctorId != userId) = false := by simp
    have hc2 : (Role.patient == Role.patient && a.patientId != userId) = false := by
      simp [hpat rfl]
    have hc3 : (AppointmentStatus.confirmed == AppointmentStatus.confirmed
        && Role.patient != Role.doctor) = true := by decide
    simp [updateAppointmentStatus, hfind, hc1, hc2, hc3]
    exact hpat rfl
  · intro a hfind hdoc hpat hconf hpay
    have h := updateStatus_success_run db apptId userId role ns reason o rid
      hprov hre hce hcf hno a hfind hdoc hpat hconf hpay
    exact ⟨h.1, h.2.1⟩

/-- C2 witness: the amended theorem at a concrete store — the doctor
confirms an appointment that is already `completed` (a terminal state); the
write goes through and 200 is returned. -/
theorem c2_amended_witness :
    apptStatus (updateAppointmentStatus {}
        { appointments := [{ id := 1, patientId := 10, doctorId := 20,
                             dateTime := 1750000000000, status := .completed }] }
        1 20 .doctor .confirmed "x").1 1 = some .confirmed ∧
    (updateAppointmentStatus {}
        { appointments := [{ id := 1, patientId := 10, doctorId := 20,
                             dateTime := 1750000000000, status := .completed }] }
        1 20 .doctor .confirmed "x").2.2 = .ok :=
  (c2_amended_update_status_auth_only
      { appointments := [{ id := 1, patientId := 10, doctorId := 20,
                           dateTime := 1750000000000, status := .completed }] }
      1 20 .doctor .confirmed "x" {} "R1" rfl rfl rfl rfl rfl).2.2.2
    { id := 1, patientId := 10, doctorId := 20,
      dateTime := 1750000000000, status := .completed }
    (by decide) (fun _ => rfl) (fun h => by cases h) (fun _ => rfl)
    (fun h => by cases h)

/-- C7 (amended): on a fully successful transition the dispatcher is invoked
with event type `appointment_{newStatus}` and the request succeeds — but
dispatcher failures are not locally contained in updateAppointmentStatus:
a confirmation-email failure aborts the request before the status write
(store unchanged, error returned); a notification failure after the write
surfaces as a request error while the already-persisted write stays. -/
theorem c7_amended_dispatcher_not_contained
    (db : DB) (apptId userId : Nat) (role : Role) (ns : AppointmentStatus)
    (reason : String) (o : UpdateOracles) (a : Appointment)
    (hfind : db.appointments.find? (fun x => x.id == apptId) = some a)
    (hdoc : role = .doctor → a.doctorId = userId)
    (hpat : role = .patient → a.patientId = userId) :
    (∀ rid, o.refundProvider = .ok rid → o.refundEmailOk = true →
      o.cancelEmailOk = true → o.confirmEmailOk = true → o.notifyOk = true →
      (ns = .confirmed → role = .doctor) →
      (ns = .cancelled → ∃ p,
        db.payments.find? (fun q => q.appointmentId == a.id) = some p ∧
        p.status ≠ .REFUNDED) →
      Effect.notifyAppointment ("appointment_" ++ ns.key)
        ∈ (updateAppointmentStatus o db apptId userId role ns reason).2.1 ∧
      (updateAppointmentStatus o db apptId userId role ns reason).2.2 = .ok) ∧
    (ns = .confirmed → role = .doctor → o.confirmEmailOk = false →
      (updateAppointmentStatus o db apptId userId role ns reason).1 = db ∧
      (updateAppointmentStatus o db apptId userId role ns reason).2.2 = .serverError) ∧
    (ns ≠ .cancelled → ns ≠ .confirmed → o.notifyOk = false →
      apptStatus (updateAppointmentStatus o db apptId userId role ns reason).1 apptId
        = some ns ∧
      (updateAppointmentStatus o db apptId userId role ns reason).2.2 = .serverError) := by
  refine ⟨?_, ?_, ?_⟩
  · intro rid hprov hre hce hcf hno hconf hpay
    have h := updateStatus_success_run db apptId userId role ns reason o rid
      hprov hre hce hcf hno a hfind hdoc hpat hconf hpay
    exact ⟨h.2.2, h.2.1⟩
  · intro hns hrole hcf
    subst hns hrole
    have hc1 : (Role.doctor == Role.doctor && a.doctorId != userId) = false := by
      simp [hdoc rfl]
    simp [updateAppointmentStatus, hfind, hc1, hcf, hdoc rfl]
  · intro hns hns' hno
    have hc1 : (role == Role.doctor && a.doctorId != userId) = false := by
      cases role
      · simp
      · simp [hdoc rfl]
    have hc2 : (role == Role.patient && a.patientId != userId) = false := by
      cases role
      · simp [hpat rfl]
      · simp
    have hc3 : (ns == AppointmentStatus.confirmed && role != Role.doctor) = false := by
      simp [hns']
    have hb1 : (ns == AppointmentStatus.cancelled) = false := by simp [hns]
    have hb2 : (ns == AppointmentStatus.confirmed) = false := by simp [hns']
    have hput := apptStatus_putAppointment db a { a with status := ns } apptId hfind rfl
    constructor
    · simp only [updateAppointmentStatus, hfind, hc1, hc2, hc3, Bool.false_eq_true,
        if_false, hb1, hb2, hno, finishStatusWrite]
      simpa using hput
    · simp [updateAppointmentStatus, hfind, hc1, hc2, hc3, hb1, hb2, hno,
        finishStatusWrite]

/-- C7 witness: the amended theorem at a concrete store — a no_show
transition whose notification call throws: the write is persisted and the
request still errors. -/
theorem c7_amended_witness :
    apptStatus (updateAppointmentStatus { notifyOk := false }
        { appointments := [{ id := 1, patientId := 10, doctorId := 20,
                             dateTime := 1750000000000, status := .confirmed }] }
        1 20 .doctor .no_show "missed").1 1 = some .no_show ∧
    (updateAppointmentStatus { notifyOk := false }
        { appointments := [{ id := 1, patientId := 10, doctorId := 20,
                             dateTime := 1750000000000, status := .confirmed }] }
        1 20 .doctor .no_show "missed").2.2 = .serverError :=
  (c7_amended_dispatcher_not_contained
      { appointments := [{ id := 1, patientId := 10, doctorId := 20,
                           dateTime := 1750000000000, status := .confirmed }] }
      1 20 .doctor .no_show "missed" { notifyOk := false }
      { id := 1, patientId := 10, doctorId := 20,
        dateTime := 1750000000000, status := .confirmed }
      (by decide) (fun _ => rfl) (fun h => by cases h)).2.2
    (by decide) (by decide) rfl

/-- Membership in the day's appointment query, in terms of the raw store. -/
theorem mem_dayAppointments (db : DB) (doctorId date : Nat) (a : Appointment) :
    a ∈ dayAppointments db doctorId date ↔
    a ∈ db.appointments ∧ a.doctorId = doctorId ∧ date ≤ a.dateTime ∧
      a.dateTime < date + msPerDay ∧
      (a.status = .pending ∨ a.status = .confirmed) := by
  simp [dayAppointments, List.mem_filter, and_assoc]

/-- Membership in the processed slot list: exactly the non-blocked base slots,
each carrying the recomputed isBooked flag. -/
theorem mem_processSlots (db : DB) (doctorId date : Nat) (base : List CalendarSlot)
    (s : CalendarSlot) :
    s ∈ processSlots db doctorId date base ↔
    ∃ s0 ∈ base, s0.isBlocked = false ∧ s = annotateSlot db doctorId date s0 := by
  constructor
  · intro hs
    rw [processSlots, List.mem_mergeSort, List.mem_filter] at hs
    obtain ⟨hmem, hblock⟩ := hs
    rw [List.mem_map] at hmem
    obtain ⟨s0, hs0, hann⟩ := hmem
    refine ⟨s0, hs0, ?_, hann.symm⟩
    have : s.isBlocked = s0.isBlocked := by rw [← hann]; rfl
    simpa [this] using hblock
  · rintro ⟨s0, hs0, hblock, rfl⟩
    rw [processSlots, List.mem_mergeSort, List.mem_filter]
    refine ⟨List.mem_map_of_mem _ hs0, ?_⟩
    simpa [annotateSlot] using hblock

/-- The processed slot list is sorted by startTime. -/
theorem pairwise_processSlots (db : DB) (doctorId date : Nat)
    (base : List CalendarSlot) :
    (processSlots db doctorId date base).Pairwise
      (fun x y => x.startTime ≤ y.startTime) := by
  have h := @List.sorted_mergeSort CalendarSlot
    (fun a b => decide (a.startTime ≤ b.startTime))
    (fun a b c hab hbc => by
      simp only [decide_eq_true_eq] at hab hbc ⊢
      exact le_trans hab hbc)
    (fun a b => by
      rcases Nat.le_total a.startTime b.startTime with h | h <;> simp [h])
    ((base.map (annotateSlot db doctorId date)).filter (fun s => !s.isBlocked))
  exact h.imp (fun hab => by simpa using hab)

/-- The recomputed isBooked flag holds iff some live pending/confirmed
appointment of the doctor that day starts at the slot's startTime. -/
theorem annotateSlot_isBooked (db : DB) (doctorId date : Nat) (s0 : CalendarSlot) :
    ((annotateSlot db doctorId date s0).isBooked = true ↔
      ∃ a ∈ db.appointments,
        a.doctorId = doctorId ∧ date ≤ a.dateTime ∧ a.dateTime < date + msPerDay ∧
        (a.status = .pending ∨ a.status = .confirmed) ∧
        minuteOfDay a.dateTime = (annotateSlot db doctorId date s0).startTime) := by
  have hstart : (annotateSlot db doctorId date s0).startTime = s0.startTime := rfl
  rw [hstart]
  constructor
  · intro hb
    have : ∃ a ∈ dayAppointments db doctorId date,
        (minuteOfDay a.dateTime == s0.startTime) = true := by
      simpa [annotateSlot, List.any_eq_true] using hb
    obtain ⟨a, ha, hba⟩ := this
    have hmem := (mem_dayAppointments db doctorId date a).mp ha
    exact ⟨a, hmem.1, hmem.2.1, hmem.2.2.1, hmem.2.2.2.1, hmem.2.2.2.2,
      by simpa using hba⟩
  · rintro ⟨a, hmem, hdoc, hged, hltd, hstat, htime⟩
    have ha : a ∈ dayAppointments db doctorId date :=
      (mem_dayAppointments db doctorId date a).mpr ⟨hmem, hdoc, hged, hltd, hstat⟩
    simp only [annotateSlot, List.any_eq_true]
    exact ⟨a, ha, by simpa using htime⟩

/-- C8: given the doctor's calendar exists, getAvailableSlots returns slots
resolved from the dated schedule entry when present and not a holiday, else
(when no dated entry exists) from the weekday default when isWorking, else
empty; every blocked slot is excluded; a returned slot is isBooked exactly
when some pending/confirmed appointment of the doctor that day starts at the
slot's startTime; and the result is sorted ascending by startTime. -/
theorem c8_available_slots_spec (db : DB) (doctorId date : Nat)
    (cal : DoctorCalendar)
    (hcal : db.calendars.find? (fun c => c.doctorId == doctorId) = some cal) :
    ∃ slots isHol, getAvailableSlots db doctorId date = .ok slots isHol ∧
      (∀ s ∈ slots, s.isBlocked = false) ∧
      (∀ s ∈ slots, (s.isBooked = true ↔ ∃ a ∈ db.appointments,
          a.doctorId = doctorId ∧ date ≤ a.dateTime ∧ a.dateTime < date + msPerDay ∧
          (a.status = .pending ∨ a.status = .confirmed) ∧
          minuteOfDay a.dateTime = s.startTime)) ∧
      slots.Pairwise (fun x y => x.startTime ≤ y.startTime) ∧
      (∀ ds, cal.schedule.find? (fun e => epochDay e.date == epochDay date) = some ds →
          isHol = ds.isHoliday ∧
          (ds.isHoliday = false →
            ∀ s, s ∈ slots ↔ ∃ s0 ∈ ds.slots, s0.isBlocked = false ∧
              s = annotateSlot db doctorId date s0) ∧
          (ds.isHoliday = true → slots = [])) ∧
      (cal.schedule.find? (fun e => epochDay e.date == epochDay date) = none →
          isHol = false ∧
          (∀ d, cal.defaultWorkingHours.find?
              (fun h => h.day == dayName (jsGetDay date)) = some d →
            (d.isWorking = true →
              ∀ s, s ∈ slots ↔ ∃ s0 ∈ d.slots, s0.isBlocked = false ∧
                s = annotateSlot db doctorId date s0) ∧
            (d.isWorking = false → slots = [])) ∧
          (cal.defaultWorkingHours.find?
              (fun h => h.day == dayName (jsGetDay date)) = none →
            slots = [])) := by
  have hblocked : ∀ base, ∀ s ∈ processSlots db doctorId date base,
      s.isBlocked = false := by
    intro base s hs
    obtain ⟨s0, _, hb, rfl⟩ := (mem_processSlots db doctorId date base s).mp hs
    simpa [annotateSlot] using hb
  have hbooked : ∀ base, ∀ s ∈ processSlots db doctorId date base,
      (s.isBooked = true ↔ ∃ a ∈ db.appointments,
        a.doctorId = doctorId ∧ date ≤ a.dateTime ∧ a.dateTime < date + msPerDay ∧
        (a.status = .pending ∨ a.status = .confirmed) ∧
        minuteOfDay a.dateTime = s.startTime) := by
    intro base s hs
    obtain ⟨s0, _, _, rfl⟩ := (mem_processSlots db doctorId date base s).mp hs
    exact annotateSlot_isBooked db doctorId date s0
  cases hds : cal.schedule.find? (fun e => epochDay e.date == epochDay date) with
  | some ds =>
    refine ⟨processSlots db doctorId date (if ds.isHoliday then [] else ds.slots),
            ds.isHoliday, ?_, hblocked _, hbooked _,
            pairwise_processSlots db doctorId date _, ?_, ?_⟩
    · simp only [getAvailableSlots, hcal, hds]
    · intro ds' hds'
      obtain rfl : ds = ds' := by injection hds'
      refine ⟨rfl, ?_, ?_⟩
      · intro hhol s
        rw [hhol]
        simpa using mem_processSlots db doctorId date ds.slots s
      · intro hhol
        rw [hhol]
        simp [processSlots]
    · intro hnone
      cases hnone
  | none =>
    cases hdef : cal.defaultWorkingHours.find?
        (fun h => h.day == dayName (jsGetDay date)) with
    | some d =>
      refine ⟨processSlots db doctorId date (if d.isWorking then d.slots else []),
              false, ?_, hblocked _, hbooked _,
              pairwise_processSlots db doctorId date _, ?_, ?_⟩
      · simp only [getAvailableSlots, hcal, hds, hdef]
      · intro ds' hds'
        cases hds'
      · intro _
        refine ⟨rfl, ?_, ?_⟩
        · intro d' hd'
          obtain rfl : d = d' := by injection hd'
          refine ⟨?_, ?_⟩
          · intro hw s
            rw [hw]
            simpa using mem_processSlots db doctorId date d.slots s
          · intro hw
            rw [hw]
            simp [processSlots]
        · intro hnone
          cases hnone
    | none =>
      refine ⟨processSlots db doctorId date [], false, ?_, hblocked _, hbooked _,
              pairwise_processSlots db doctorId date _, ?_, ?_⟩
      · simp only [getAvailableSlots, hcal, hds, hdef]
      · intro ds' hds'
        cases hds'
      · intro _
        refine ⟨rfl, ?_, ?_⟩
        · intro d' hd'
          cases hd'
        · intro _
          simp [processSlots]

/-- C8 witness: the theorem at the concrete sample store. -/
theorem c8_available_slots_witness :
    ∃ slots isHol, getAvailableSlots c8db 20 (86400000 * 20000) = .ok slots isHol ∧
      (∀ s ∈ slots, s.isBlocked = false) ∧
      (∀ s ∈ slots, (s.isBooked = true ↔ ∃ a ∈ c8db.appointments,
          a.doctorId = 20 ∧ 86400000 * 20000 ≤ a.dateTime ∧
          a.dateTime < 86400000 * 20000 + msPerDay ∧
          (a.status = .pending ∨ a.status = .confirmed) ∧
          minuteOfDay a.dateTime = s.startTime)) ∧
      slots.Pairwise (fun x y => x.startTime ≤ y.startTime) ∧
      (∀ ds, c8cal.schedule.find?
          (fun e => epochDay e.date == epochDay (86400000 * 20000)) = some ds →
          isHol = ds.isHoliday ∧
          (ds.isHoliday = false →
            ∀ s, s ∈ slots ↔ ∃ s0 ∈ ds.slots, s0.isBlocked = false ∧
              s = annotateSlot c8db 20 (86400000 * 20000) s0) ∧
          (ds.isHoliday = true → slots = [])) ∧
      (c8cal.schedule.find?
          (fun e => epochDay e.date == epochDay (86400000 * 20000)) = none →
          isHol = false ∧
          (∀ d, c8cal.defaultWorkingHours.find?
              (fun h => h.day == dayName (jsGetDay (86400000 * 20000))) = some d →
            (d.isWorking = true →
              ∀ s, s ∈ slots ↔ ∃ s0 ∈ d.slots, s0.isBlocked = false ∧
                s = annotateSlot c8db 20 (86400000 * 20000) s0) ∧
            (d.isWorking = false → slots = [])) ∧
          (c8cal.defaultWorkingHours.find?
              (fun h => h.day == dayName (jsGetDay (86400000 * 20000))) = none →
            slots = [])) :=
  c8_available_slots_spec c8db 20 (86400000 * 20000) c8cal (by decide)

end Mediconnect
